import Mathlib

/-!
WHP-simple: a shallow embedding of `main.c`.

`main.c` creates one Windows Hypervisor Platform partition, builds a two-level
page-table structure and a one-page code region in guest-physical memory,
programs nine registers of one virtual processor and resumes it once.

The embedding keeps the names of the source.  Machine integers are `Nat`
(unsigned, reduced modulo `2^64` where the source computes in `UINT64`) and
`Int` (the signed `long` arithmetic of the `KiB`/`GiB` macros and `HRESULT`).
-/

namespace WHP

/-! ## Integer types and the size macros -/

/-- Width in bits of the C type `long` on the target (Windows is LLP64). -/
def LONG_BITS : Nat := 32

/-- Multiplication of two `long` values of `w` bits: `none` when the exact
product is not representable (signed overflow). -/
def mulLong (w : Nat) (a b : Int) : Option Int :=
  if -(2 : Int) ^ (w - 1) ≤ a * b ∧ a * b < (2 : Int) ^ (w - 1) then some (a * b) else none

/-- Subtraction of two `long` values of `w` bits: `none` on signed overflow. -/
def subLong (w : Nat) (a b : Int) : Option Int :=
  if -(2 : Int) ^ (w - 1) ≤ a - b ∧ a - b < (2 : Int) ^ (w - 1) then some (a - b) else none

/-- In C: `#define KiB *1L*1024`, so `x KiB` is `(x * 1L) * 1024`. -/
def KiB (w : Nat) (x : Int) : Option Int :=
  (mulLong w x 1).bind fun a => mulLong w a 1024

/-- In C: `#define MiB *1L*1024*1024`. -/
def MiB (w : Nat) (x : Int) : Option Int :=
  ((mulLong w x 1).bind fun a => mulLong w a 1024).bind fun b => mulLong w b 1024

/-- In C: `#define GiB *1L*1024*1024*1024`. -/
def GiB (w : Nat) (x : Int) : Option Int :=
  (((mulLong w x 1).bind fun a => mulLong w a 1024).bind fun b => mulLong w b 1024).bind
    fun c => mulLong w c 1024

/-- Conversion of a signed value to `UINT64` (reduction modulo `2^64`). -/
def toUINT64 (i : Int) : Nat := (i % (2 : Int) ^ 64).toNat

/-- Conversion of a signed value to `size_t` (64 bits on the target). -/
def toSizeT (i : Int) : Nat := (i % (2 : Int) ^ 64).toNat

/-- The value of a `long` constant expression; an overflowing expression has
no defined value and is read as `0` here (the theorems show it does not occur). -/
def longValue (e : Option Int) : Int := e.getD 0

/-! ## Constants of `main.c` -/

/-- In C: `const UINT64 PTE_P = 1ULL << 0; // Present`. -/
def PTE_P : Nat := (1 <<< 0) % 2 ^ 64
/-- In C: `const UINT64 PTE_RW = 1ULL << 1; // Read/Write`. -/
def PTE_RW : Nat := (1 <<< 1) % 2 ^ 64
/-- In C: `const UINT64 PTE_US = 1ULL << 2; // User/Supervisor`. -/
def PTE_US : Nat := (1 <<< 2) % 2 ^ 64
/-- In C: `const UINT64 PTE_PS = 1ULL << 7; // Page Size`. -/
def PTE_PS : Nat := (1 <<< 7) % 2 ^ 64
/-- In C: `const UINT64 PTE_G = 1ULL << 8; // Global`. -/
def PTE_G : Nat := (1 <<< 8) % 2 ^ 64

/-- In C: `const UINT64 CR0_PE = 1ULL << 0; // Protection Enable`. -/
def CR0_PE : Nat := (1 <<< 0) % 2 ^ 64
/-- In C: `const UINT64 CR0_PG = 1ULL << 31; // Paging Enable`. -/
def CR0_PG : Nat := (1 <<< 31) % 2 ^ 64
/-- In C: `const UINT64 CR4_PSE = 1ULL << 4; // Page Size Extensions`. -/
def CR4_PSE : Nat := (1 <<< 4) % 2 ^ 64
/-- In C: `const UINT64 CR4_PAE = 1ULL << 5; // Physical Address Extension`. -/
def CR4_PAE : Nat := (1 <<< 5) % 2 ^ 64
/-- In C: `const UINT64 EFER_LME = 1ULL << 8; // IA-32e Mode Enable`. -/
def EFER_LME : Nat := (1 <<< 8) % 2 ^ 64
/-- In C: `const UINT64 EFER_LMA = 1ULL << 10; // IA-32e Mode Active`. -/
def EFER_LMA : Nat := (1 <<< 10) % 2 ^ 64

/-- In C: `const UINT64 user_start = 4 KiB;`. -/
def user_start : Nat := toUINT64 (longValue (KiB LONG_BITS 4))

/-- In C: `const UINT64 kernel_start = 1 GiB;`. -/
def kernel_start : Nat := toUINT64 (longValue (GiB LONG_BITS 1))

/-- In C: `struct kernel { UINT64 pml4[512]; UINT64 pdpt[512]; }`: two tables of
64-bit entries. -/
structure kernel where
  pml4 : List Nat
  pdpt : List Nat
deriving DecidableEq

/-- In C: `offsetof(struct kernel, pml4)`: the first member. -/
def offsetof_pml4 : Nat := 0

/-- In C: `offsetof(struct kernel, pdpt)`: after the 512 eight-byte entries of `pml4`. -/
def offsetof_pdpt : Nat := 512 * 8

/-- In C: `sizeof(struct kernel)` (also `sizeof(*kernel)`). -/
def sizeof_kernel : Nat := 512 * 8 + 512 * 8

/-- In C: `const UINT8 user_code[] = { 0x0f, 0x01, 0xc1 }; // vmcall`. -/
def user_code : List Nat := [0x0f, 0x01, 0xc1]

/-- In C: `sizeof(user_code)`. -/
def sizeof_user_code : Nat := user_code.length

/-! ## Building the kernel region (`main`, lines 117-125) -/

/-- In C: `memset(kernel, 0, sizeof(*kernel))`: every entry of both tables is zero,
whatever the allocator returned. -/
def memset_kernel (_k : kernel) : kernel :=
  { pml4 := List.replicate 512 0, pdpt := List.replicate 512 0 }

/-- The value stored to `kernel->pml4[0]`. -/
def pml4_entry0 : Nat :=
  ((kernel_start + offsetof_pdpt) % 2 ^ 64) ||| (PTE_P ||| PTE_RW ||| PTE_US)

/-- The value stored to `kernel->pdpt[0]`. -/
def pdpt_entry0 : Nat :=
  0x0 ||| (PTE_P ||| PTE_RW ||| PTE_US ||| PTE_PS)

/-- The kernel structure after the `memset` and the two stores. -/
def build_kernel (k0 : kernel) : kernel :=
  let k1 := memset_kernel k0
  let k2 := { k1 with pml4 := k1.pml4.set 0 pml4_entry0 }
  { k2 with pdpt := k2.pdpt.set 0 pdpt_entry0 }

/-- Address field of a page-table entry: bits 12..51. -/
def pteAddr (e : Nat) : Nat := e &&& 0x000ffffffffff000

/-- Flag bits of a page-table entry: everything outside bits 12..51. -/
def pteFlags (e : Nat) : Nat := e &&& 0xfff0000000000fff

/-! ## Platform types (declared in `WinHvPlatform.h`) -/

/-- Modelled from the spec: the register-name enumeration `WHV_REGISTER_NAME`
of the platform header `WinHvPlatform.h`, which is not among the sources.  Only
the identity of the enumerators matters; the x64 general, segment, table and
control registers and `Efer` are listed. -/
inductive WHV_REGISTER_NAME where
  | WHvX64RegisterRax | WHvX64RegisterRcx | WHvX64RegisterRdx | WHvX64RegisterRbx
  | WHvX64RegisterRsp | WHvX64RegisterRbp | WHvX64RegisterRsi | WHvX64RegisterRdi
  | WHvX64RegisterR8 | WHvX64RegisterR9 | WHvX64RegisterR10 | WHvX64RegisterR11
  | WHvX64RegisterR12 | WHvX64RegisterR13 | WHvX64RegisterR14 | WHvX64RegisterR15
  | WHvX64RegisterRip | WHvX64RegisterRflags
  | WHvX64RegisterEs | WHvX64RegisterCs | WHvX64RegisterSs | WHvX64RegisterDs
  | WHvX64RegisterFs | WHvX64RegisterGs
  | WHvX64RegisterLdtr | WHvX64RegisterTr | WHvX64RegisterIdtr | WHvX64RegisterGdtr
  | WHvX64RegisterCr0 | WHvX64RegisterCr2 | WHvX64RegisterCr3 | WHvX64RegisterCr4
  | WHvX64RegisterCr8 | WHvX64RegisterEfer
deriving DecidableEq

/-- Modelled from the spec: `WHV_X64_SEGMENT_REGISTER` of `WinHvPlatform.h`
(base, limit, selector and the 16-bit access attributes). -/
structure WHV_X64_SEGMENT_REGISTER where
  Base : Nat
  Limit : Nat
  Selector : Nat
  Attributes : Nat
deriving DecidableEq

/-- Modelled from the spec: the members of the union `WHV_REGISTER_VALUE` that
`main` writes, `Reg64` and `Segment`. -/
inductive WHV_REGISTER_VALUE where
  | Reg64 (v : Nat)
  | Segment (s : WHV_X64_SEGMENT_REGISTER)
deriving DecidableEq

/-- Modelled from the spec: the bit-field layout of the 16-bit `Attributes` of
`WHV_X64_SEGMENT_REGISTER`; bits 0..3 are the segment type. -/
def SegmentType (a : Nat) : Nat := a % 16
/-- Bit 4: non-system segment. -/
def NonSystemSegment (a : Nat) : Nat := (a >>> 4) % 2
/-- Bits 5..6: descriptor privilege level. -/
def DescriptorPrivilegeLevel (a : Nat) : Nat := (a >>> 5) % 4
/-- Bit 7: present. -/
def Present (a : Nat) : Nat := (a >>> 7) % 2
/-- Bit 13: long. -/
def Long (a : Nat) : Nat := (a >>> 13) % 2
/-- Bit 14: default operand size. -/
def Default (a : Nat) : Nat := (a >>> 14) % 2
/-- Bit 15: granularity. -/
def Granularity (a : Nat) : Nat := (a >>> 15) % 2
/-- Bit 3 of a code/data segment type: executable. -/
def typeExecutable (t : Nat) : Bool := t.testBit 3
/-- Bit 1 of a data segment type: writable. -/
def typeWritable (t : Nat) : Bool := t.testBit 1

/-- Modelled from the spec: the permission flags of `WHvMapGpaRange`. -/
inductive WHV_MAP_GPA_RANGE_FLAGS where
  | WHvMapGpaRangeFlagRead | WHvMapGpaRangeFlagWrite | WHvMapGpaRangeFlagExecute
deriving DecidableEq

/-- Modelled from the spec: `WHV_EXTENDED_VM_EXITS`, the exit kinds a partition
reports (bit fields of the platform header). -/
structure WHV_EXTENDED_VM_EXITS where
  X64CpuidExit : Nat
  X64MsrExit : Nat
  ExceptionExit : Nat
  HypercallExit : Nat
deriving DecidableEq

/-- The property passed to `WHvSetPartitionProperty`: its code with its value. -/
inductive PartitionProperty where
  | WHvPartitionPropertyCodeProcessorCount (cpu_count : Nat)
  | WHvPartitionPropertyCodeExtendedVmExits (vmexits : WHV_EXTENDED_VM_EXITS)
deriving DecidableEq

/-! ## Register programming (`main`, lines 143-178) -/

/-- In C: `enum { Cr0, Cr3, Cr4, Efer, Cs, Ss, Ds, Es, Rip, RegNum };`. -/
def Cr0 : Nat := 0
/-- Second enumerator. -/
def Cr3 : Nat := 1
/-- Third enumerator. -/
def Cr4 : Nat := 2
/-- Fourth enumerator. -/
def Efer : Nat := 3
/-- Fifth enumerator. -/
def Cs : Nat := 4
/-- Sixth enumerator. -/
def Ss : Nat := 5
/-- Seventh enumerator. -/
def Ds : Nat := 6
/-- Eighth enumerator. -/
def Es : Nat := 7
/-- Ninth enumerator. -/
def Rip : Nat := 8
/-- The enumerator after the last register index: the array length. -/
def RegNum : Nat := 9

/-- In C: `WHV_REGISTER_NAME regname[RegNum];` after its nine assignments.  A slot
not yet assigned is `none`. -/
def regname : List (Option WHV_REGISTER_NAME) :=
  (List.replicate RegNum none)
    |>.set Cr0 (some .WHvX64RegisterCr0)
    |>.set Cr3 (some .WHvX64RegisterCr3)
    |>.set Cr4 (some .WHvX64RegisterCr4)
    |>.set Efer (some .WHvX64RegisterEfer)
    |>.set Cs (some .WHvX64RegisterCs)
    |>.set Ss (some .WHvX64RegisterSs)
    |>.set Ds (some .WHvX64RegisterDs)
    |>.set Es (some .WHvX64RegisterEs)
    |>.set Rip (some .WHvX64RegisterRip)

/-- In C: `WHV_X64_SEGMENT_REGISTER CodeSegment` after its four assignments. -/
def CodeSegment : WHV_X64_SEGMENT_REGISTER :=
  { Base := 0, Limit := 0xffff, Selector := 0x08, Attributes := 0xa0fb }

/-- In C: `WHV_X64_SEGMENT_REGISTER DataSegment` after its four assignments. -/
def DataSegment : WHV_X64_SEGMENT_REGISTER :=
  { Base := 0, Limit := 0xffff, Selector := 0x10, Attributes := 0xc0f3 }

/-- In C: `WHV_REGISTER_VALUE regvalue[RegNum];` after its nine assignments, in the
order of the source.  A slot not yet assigned is `none`. -/
def regvalue : List (Option WHV_REGISTER_VALUE) :=
  (List.replicate RegNum none)
    |>.set Cr0 (some (.Reg64 (CR0_PE ||| CR0_PG)))
    |>.set Cr3 (some (.Reg64 ((kernel_start + offsetof_pml4) % 2 ^ 64)))
    |>.set Cr4 (some (.Reg64 (CR4_PSE ||| CR4_PAE)))
    |>.set Efer (some (.Reg64 (EFER_LME ||| EFER_LMA)))
    |>.set Cs (some (.Segment CodeSegment))
    |>.set Ss (some (.Segment DataSegment))
    |>.set Ds (some (.Segment DataSegment))
    |>.set Es (some (.Segment DataSegment))
    |>.set Rip (some (.Reg64 user_start))

/-! ## The user page (`main`, lines 131-134) -/

/-- In C: `memcpy(dst, src, n)` on byte lists: the first `n` bytes of `dst` are
replaced by the first `n` bytes of `src`. -/
def memcpy (dst src : List Nat) (n : Nat) : List Nat := src.take n ++ dst.drop n

/-- The user page after `memcpy(user_page, user_code, sizeof(user_code))`;
`page0` is the content the allocator returned. -/
def build_user_page (page0 : List Nat) : List Nat := memcpy page0 user_code sizeof_user_code

/-! ## Output formatting -/

/-- The character `printf` writes for one hexadecimal digit with `%x`:
`0`..`9`, then lowercase `a`..`f`. -/
def hexDigit (d : Nat) : Char :=
  if d < 10 then Char.ofNat (48 + d) else Char.ofNat (87 + d)

/-- Most significant digit first, at most `fuel` digits, no leading zero. -/
def hexDigitsAux : Nat → Nat → List Char → List Char
  | 0, _, acc => acc
  | fuel + 1, n, acc =>
    if n < 16 then hexDigit n :: acc
    else hexDigitsAux fuel (n / 16) (hexDigit (n % 16) :: acc)

/-- The text `printf("%x", n)` writes: `n` converted to `unsigned int`
(32 bits, at most 8 digits) in lowercase hexadecimal. -/
def printf_x (n : Nat) : String := String.mk (hexDigitsAux 8 (n % 2 ^ 32) [])

/-- Value of one lowercase hexadecimal digit character (`0` for any other). -/
def hexDigitValue (c : Char) : Nat :=
  if 48 ≤ c.toNat ∧ c.toNat ≤ 57 then c.toNat - 48
  else if 97 ≤ c.toNat ∧ c.toNat ≤ 102 then c.toNat - 87
  else 0

/-- Whether a character is one of `0123456789abcdef`. -/
def isLowerHexDigit (c : Char) : Bool :=
  (48 ≤ c.toNat && c.toNat ≤ 57) || (97 ≤ c.toNat && c.toNat ≤ 102)

/-- The number a string of hexadecimal digits denotes. -/
def hexValue (cs : List Char) : Nat := cs.foldl (fun a c => 16 * a + hexDigitValue c) 0

/-! ## The run of `main` -/

/-- A host buffer handed to `WHvMapGpaRange`, with its content at the call. -/
inductive HostBuffer where
  | kernel (k : kernel)
  | user_page (bytes : List Nat)
deriving DecidableEq

/-- A call `main` issues to the platform or the allocator, with the arguments
that matter. -/
inductive Call where
  | WHvGetCapability
  | WHvCreatePartition
  | WHvSetPartitionProperty (property : PartitionProperty)
  | WHvSetupPartition
  | aligned_alloc (alignment size : Nat)
  | WHvMapGpaRange (source : HostBuffer) (gpa size : Nat)
      (flags : List WHV_MAP_GPA_RANGE_FLAGS)
  | WHvCreateVirtualProcessor (vcpu : Nat)
  | WHvSetVirtualProcessorRegisters (vcpu : Nat)
      (names : List (Option WHV_REGISTER_NAME)) (count : Nat)
      (values : List (Option WHV_REGISTER_VALUE))
  | WHvRunVirtualProcessor (vcpu : Nat)
deriving DecidableEq

/-- What the platform and the allocator answer during one run of `main`. -/
structure Platform where
  /-- The `HRESULT` of `WHvGetCapability`; `main` discards it. -/
  getCapability : Int
  /-- The value of `capability.HypervisorPresent` after the capability query. -/
  HypervisorPresent : Bool
  /-- The `HRESULT` of `WHvCreatePartition`. -/
  createPartition : Int
  /-- The `HRESULT` of `WHvSetPartitionProperty` for the processor count. -/
  setProcessorCount : Int
  /-- The `HRESULT` of `WHvSetPartitionProperty` for the extended VM exits. -/
  setExtendedVmExits : Int
  /-- The `HRESULT` of `WHvSetupPartition`. -/
  setupPartition : Int
  /-- Result of the first `aligned_alloc`: `none` is a null pointer, otherwise
  the content of the buffer returned. -/
  kernelAlloc : Option kernel
  /-- The `HRESULT` of `WHvMapGpaRange` for the kernel region. -/
  mapKernel : Int
  /-- Result of the second `aligned_alloc`. -/
  userAlloc : Option (List Nat)
  /-- The `HRESULT` of `WHvMapGpaRange` for the user region. -/
  mapUser : Int
  /-- The `HRESULT` of `WHvCreateVirtualProcessor`. -/
  createVirtualProcessor : Int
  /-- The `HRESULT` of `WHvSetVirtualProcessorRegisters`. -/
  setRegisters : Int
  /-- The `HRESULT` of `WHvRunVirtualProcessor`. -/
  runVirtualProcessor : Int
  /-- The value of `context.ExitReason` as written by `WHvRunVirtualProcessor`. -/
  ExitReason : Nat

/-- The observable state of the process: calls issued so far, and the text
written to the two streams. -/
structure World where
  calls : List Call
  stdout : String
  stderr : String
deriving DecidableEq

/-- How the process ends. -/
inductive Termination where
  | returned (status : Int)
  | exited (status : Int)
  | aborted
deriving DecidableEq

/-- The result of a run. -/
structure Outcome where
  termination : Termination
  world : World
deriving DecidableEq

/-- The state at process start. -/
def World.start : World := { calls := [], stdout := "", stderr := "" }

/-- Record a call. -/
def World.call (w : World) (c : Call) : World := { w with calls := w.calls ++ [c] }

/-- In C: `fputs(s, stderr)`. -/
def World.fputs_stderr (w : World) (s : String) : World := { w with stderr := w.stderr ++ s }

/-- A `printf` of an already formatted text to the standard output. -/
def World.printf (w : World) (s : String) : World := { w with stdout := w.stdout ++ s }

/-- In C: `puts(s)`: the text and a newline to the standard output. -/
def World.puts (w : World) (s : String) : World := { w with stdout := w.stdout ++ s ++ "\n" }

/-- In C: `#define panic(x) (void)(fputs("panic: " x "\n",stderr),exit(1))`. -/
def panic (x : String) (w : World) : Outcome :=
  { termination := .exited 1, world := w.fputs_stderr ("panic: " ++ x ++ "\n") }

/-- In C: `#define OR >=0?(void)0:`, so `call OR handler; rest` runs `rest` when the
`HRESULT` of the call is non-negative and the handler otherwise. -/
def OR (hr : Int) (handler : World → Outcome) (w : World) (rest : World → Outcome) : Outcome :=
  if hr ≥ 0 then rest w else handler w

/-- A failed `assert`: the process aborts. -/
def assert_fail (w : World) : Outcome := { termination := .aborted, world := w }

/-- The operand `4 KiB - 1` of the assertion, converted to `size_t`. -/
def page_mask : Nat :=
  toSizeT (longValue ((KiB LONG_BITS 4).bind fun a => subLong LONG_BITS a 1))

/-- The function `main`, as a function of the platform's answers.  The exit reason that
`WinHvPlatform.h` names `WHvRunVpExitReasonHypercall` is a parameter. -/
def main (WHvRunVpExitReasonHypercall : Nat) (p : Platform) : Outcome :=
  let vcpu : Nat := 0
  let w := World.start
  let w := w.call .WHvGetCapability
  if p.HypervisorPresent = false then
    panic "Windows Hypervisor Platform is not enabled" w
  else
  let w := w.call .WHvCreatePartition
  OR p.createPartition (panic "create partition") w fun w =>
  let cpu_count : Nat := 1
  let w := w.call (.WHvSetPartitionProperty (.WHvPartitionPropertyCodeProcessorCount cpu_count))
  OR p.setProcessorCount (panic "set partition property (cpu count)") w fun w =>
  let vmexits : WHV_EXTENDED_VM_EXITS :=
    { X64CpuidExit := 0, X64MsrExit := 0, ExceptionExit := 0, HypercallExit := 0 }
  let vmexits := { vmexits with HypercallExit := 1 }
  let w := w.call (.WHvSetPartitionProperty (.WHvPartitionPropertyCodeExtendedVmExits vmexits))
  OR p.setExtendedVmExits (panic "set partition property (vmexits)") w fun w =>
  let w := w.call .WHvSetupPartition
  OR p.setupPartition (panic "setup partition") w fun w =>
  if sizeof_kernel &&& page_mask ≠ 0 then assert_fail w else
  let w := w.call (.aligned_alloc (toSizeT (longValue (KiB LONG_BITS 4))) sizeof_kernel)
  match p.kernelAlloc with
  | none => panic "aligned_alloc" w
  | some kernel0 =>
  let kernel := build_kernel kernel0
  let w := w.call (.WHvMapGpaRange (.kernel kernel) kernel_start sizeof_kernel
    [.WHvMapGpaRangeFlagRead, .WHvMapGpaRangeFlagWrite])
  OR p.mapKernel (panic "map the kernel region") w fun w =>
  let w := w.call (.aligned_alloc (toSizeT (longValue (KiB LONG_BITS 4)))
    (toSizeT (longValue (KiB LONG_BITS 4))))
  match p.userAlloc with
  | none => panic "aligned_alloc" w
  | some page0 =>
  let user_page := build_user_page page0
  let w := w.call (.WHvMapGpaRange (.user_page user_page) user_start
    (toSizeT (longValue (KiB LONG_BITS 4)))
    [.WHvMapGpaRangeFlagRead, .WHvMapGpaRangeFlagExecute])
  OR p.mapUser (panic "map the user region") w fun w =>
  let w := w.call (.WHvCreateVirtualProcessor vcpu)
  OR p.createVirtualProcessor (panic "create virtual processor") w fun w =>
  let w := w.call (.WHvSetVirtualProcessorRegisters vcpu regname RegNum regvalue)
  OR p.setRegisters (panic "set virtual processor registers") w fun w =>
  let w := w.call (.WHvRunVirtualProcessor vcpu)
  OR p.runVirtualProcessor (panic "run virtual processor") w fun w =>
  let w := w.printf ("Exit reason: " ++ printf_x p.ExitReason ++ "\n")
  let w :=
    if p.ExitReason = WHvRunVpExitReasonHypercall then
      w.puts "The vmcall instruction is executed"
    else w
  { termination := .returned 0, world := w }

/-! ## The steps of a run, as the specification lists them -/

/-- The platform or allocator function a call goes to. -/
inductive CallKind where
  | getCapability | createPartition | setPartitionProperty | setupPartition
  | alignedAlloc | mapGpaRange | createVirtualProcessor
  | setVirtualProcessorRegisters | runVirtualProcessor
deriving DecidableEq

/-- The function a call goes to. -/
def Call.kind : Call → CallKind
  | .WHvGetCapability => .getCapability
  | .WHvCreatePartition => .createPartition
  | .WHvSetPartitionProperty _ => .setPartitionProperty
  | .WHvSetupPartition => .setupPartition
  | .aligned_alloc _ _ => .alignedAlloc
  | .WHvMapGpaRange _ _ _ _ => .mapGpaRange
  | .WHvCreateVirtualProcessor _ => .createVirtualProcessor
  | .WHvSetVirtualProcessorRegisters _ _ _ _ => .setVirtualProcessorRegisters
  | .WHvRunVirtualProcessor _ => .runVirtualProcessor

/-- The twelve steps of a run that can fail, named as the specification
names them. -/
inductive Step where
  | capabilityCheck | createPartition | setProcessorCount | setExtendedExits
  | setupPartition | allocateKernel | mapKernel | allocateUser | mapUser
  | createVcpu | setRegisters | runVcpu
deriving DecidableEq

/-- The steps in program order, as the specification lists them. -/
def programOrder : List Step :=
  [.capabilityCheck, .createPartition, .setProcessorCount, .setExtendedExits,
   .setupPartition, .allocateKernel, .mapKernel, .allocateUser, .mapUser,
   .createVcpu, .setRegisters, .runVcpu]

/-- Position of a step in program order. -/
def Step.index : Step → Nat
  | .capabilityCheck => 0 | .createPartition => 1 | .setProcessorCount => 2
  | .setExtendedExits => 3 | .setupPartition => 4 | .allocateKernel => 5
  | .mapKernel => 6 | .allocateUser => 7 | .mapUser => 8
  | .createVcpu => 9 | .setRegisters => 10 | .runVcpu => 11

/-- The function a step calls. -/
def Step.kind : Step → CallKind
  | .capabilityCheck => .getCapability
  | .createPartition => .createPartition
  | .setProcessorCount => .setPartitionProperty
  | .setExtendedExits => .setPartitionProperty
  | .setupPartition => .setupPartition
  | .allocateKernel => .alignedAlloc
  | .mapKernel => .mapGpaRange
  | .allocateUser => .alignedAlloc
  | .mapUser => .mapGpaRange
  | .createVcpu => .createVirtualProcessor
  | .setRegisters => .setVirtualProcessorRegisters
  | .runVcpu => .runVirtualProcessor

/-- Whether the platform's answer lets a step succeed: the flag is set, the
pointer is not null, the `HRESULT` is non-negative. -/
def Step.ok (p : Platform) : Step → Bool
  | .capabilityCheck => p.HypervisorPresent
  | .createPartition => decide (0 ≤ p.createPartition)
  | .setProcessorCount => decide (0 ≤ p.setProcessorCount)
  | .setExtendedExits => decide (0 ≤ p.setExtendedVmExits)
  | .setupPartition => decide (0 ≤ p.setupPartition)
  | .allocateKernel => p.kernelAlloc.isSome
  | .mapKernel => decide (0 ≤ p.mapKernel)
  | .allocateUser => p.userAlloc.isSome
  | .mapUser => decide (0 ≤ p.mapUser)
  | .createVcpu => decide (0 ≤ p.createVirtualProcessor)
  | .setRegisters => decide (0 ≤ p.setRegisters)
  | .runVcpu => decide (0 ≤ p.runVirtualProcessor)

/-- The message that identifies a failed step. -/
def Step.message : Step → String
  | .capabilityCheck => "Windows Hypervisor Platform is not enabled"
  | .createPartition => "create partition"
  | .setProcessorCount => "set partition property (cpu count)"
  | .setExtendedExits => "set partition property (vmexits)"
  | .setupPartition => "setup partition"
  | .allocateKernel => "aligned_alloc"
  | .mapKernel => "map the kernel region"
  | .allocateUser => "aligned_alloc"
  | .mapUser => "map the user region"
  | .createVcpu => "create virtual processor"
  | .setRegisters => "set virtual processor registers"
  | .runVcpu => "run virtual processor"

/-- The first step, in program order, whose answer is a failure. -/
def firstFailure (p : Platform) : Option Step :=
  programOrder.find? fun s => !s.ok p

/-- Every answer is a success: the flag is true, both allocations are
non-null and every examined `HRESULT` is non-negative. -/
@[reducible] def Platform.allSucceed (p : Platform) : Prop :=
  p.HypervisorPresent = true ∧ p.kernelAlloc.isSome = true ∧ p.userAlloc.isSome = true ∧
  0 ≤ p.createPartition ∧ 0 ≤ p.setProcessorCount ∧ 0 ≤ p.setExtendedVmExits ∧
  0 ≤ p.setupPartition ∧ 0 ≤ p.mapKernel ∧ 0 ≤ p.mapUser ∧
  0 ≤ p.createVirtualProcessor ∧ 0 ≤ p.setRegisters ∧ 0 ≤ p.runVirtualProcessor

/-- The calls of a run in which every step succeeds, with their arguments
written out. -/
def successCalls (kernel0 : kernel) (page0 : List Nat) : List Call :=
  [.WHvGetCapability,
   .WHvCreatePartition,
   .WHvSetPartitionProperty (.WHvPartitionPropertyCodeProcessorCount 1),
   .WHvSetPartitionProperty (.WHvPartitionPropertyCodeExtendedVmExits
     { X64CpuidExit := 0, X64MsrExit := 0, ExceptionExit := 0, HypercallExit := 1 }),
   .WHvSetupPartition,
   .aligned_alloc 4096 8192,
   .WHvMapGpaRange (.kernel (build_kernel kernel0)) (2 ^ 30) 8192
     [.WHvMapGpaRangeFlagRead, .WHvMapGpaRangeFlagWrite],
   .aligned_alloc 4096 4096,
   .WHvMapGpaRange (.user_page (build_user_page page0)) 4096 4096
     [.WHvMapGpaRangeFlagRead, .WHvMapGpaRangeFlagExecute],
   .WHvCreateVirtualProcessor 0,
   .WHvSetVirtualProcessorRegisters 0 regname RegNum regvalue,
   .WHvRunVirtualProcessor 0]

/-- The calls a run would issue if no step failed; a failed allocation stands
for an empty buffer, which no issued call then mentions. -/
def fullCalls (p : Platform) : List Call :=
  successCalls (p.kernelAlloc.getD { pml4 := [], pdpt := [] }) (p.userAlloc.getD [])

/-- The text the dispatch step writes to the standard output. -/
def dispatchOutput (WHvRunVpExitReasonHypercall ExitReason : Nat) : String :=
  "Exit reason: " ++ printf_x ExitReason ++ "\n" ++
    (if ExitReason = WHvRunVpExitReasonHypercall then "The vmcall instruction is executed\n"
     else "")

/-- The outcome the specification describes: status 1 and one diagnostic line
at the first failing step, status 0 after the dispatch step otherwise. -/
def specOutcome (WHvRunVpExitReasonHypercall : Nat) (p : Platform) : Outcome :=
  match firstFailure p with
  | some s =>
    { termination := .exited 1,
      world := { calls := (fullCalls p).take (s.index + 1), stdout := "",
                 stderr := "panic: " ++ s.message ++ "\n" } }
  | none =>
    { termination := .returned 0,
      world := { calls := fullCalls p,
                 stdout := dispatchOutput WHvRunVpExitReasonHypercall p.ExitReason,
                 stderr := "" } }

/-! ## Guest-physical memory and the registers, as the calls set them up -/

/-- Byte `j` (least significant first) of a 64-bit value: x86-64 stores are
little-endian. -/
def leByte (w j : Nat) : Nat := (w >>> (8 * j)) % 256

/-- The byte at offset `off` of a host buffer.  A `struct kernel` lays `pml4`
out first and `pdpt` after it, eight bytes an entry. -/
def HostBuffer.byte : HostBuffer → Nat → Nat
  | .kernel k, off =>
    if off < offsetof_pdpt then leByte (k.pml4.getD (off / 8) 0) (off % 8)
    else leByte (k.pdpt.getD ((off - offsetof_pdpt) / 8) 0) (off % 8)
  | .user_page bytes, off => bytes.getD off 0

/-- One range of guest-physical memory backed by a host buffer. -/
structure Mapping where
  source : HostBuffer
  gpa : Nat
  size : Nat
  flags : List WHV_MAP_GPA_RANGE_FLAGS
deriving DecidableEq

/-- The ranges the `WHvMapGpaRange` calls of a run map, in call order. -/
def mappings : List Call → List Mapping
  | [] => []
  | .WHvMapGpaRange source gpa size flags :: cs =>
    { source := source, gpa := gpa, size := size, flags := flags } :: mappings cs
  | _ :: cs => mappings cs

/-- The guest-physical byte at address `g`: `none` where nothing is mapped. -/
def gpaRead8 (ms : List Mapping) (g : Nat) : Option Nat :=
  match ms.find? fun m => decide (m.gpa ≤ g ∧ g < m.gpa + m.size) with
  | some m => some (m.source.byte (g - m.gpa))
  | none => none

/-- The little-endian 64-bit value at guest-physical address `g`. -/
def gpaRead64 (ms : List Mapping) (g : Nat) : Option Nat :=
  (List.range 8).foldr
    (fun j acc => (gpaRead8 ms (g + j)).bind fun b => acc.map fun r => b + 256 * r)
    (some 0)

/-- The value a register-programming call gives register `r`: the value at
the index where the name array holds `r`, among the first `count` pairs. -/
def lookupRegister (names : List (Option WHV_REGISTER_NAME))
    (values : List (Option WHV_REGISTER_VALUE)) (count : Nat)
    (r : WHV_REGISTER_NAME) : Option WHV_REGISTER_VALUE :=
  ((names.zip values).take count).findSome? fun nv => if nv.1 = some r then nv.2 else none

/-- The value the first `WHvSetVirtualProcessorRegisters` call of a run gives
register `r`. -/
def programmedRegister : List Call → WHV_REGISTER_NAME → Option WHV_REGISTER_VALUE
  | [], _ => none
  | .WHvSetVirtualProcessorRegisters _ names count values :: _, r =>
    lookupRegister names values count r
  | _ :: cs, r => programmedRegister cs r

/-- The result of an address translation. -/
structure Translation where
  gpa : Nat
  writable : Bool
  user : Bool
deriving DecidableEq

/-- Modelled from the spec: the x86-64 long-mode page walk (the processor's,
not code of `main.c`).  `CR3` bits 12..51 locate the PML4 table; the PML4 index
is bits 39..47 of the virtual address, the PDPT index bits 30..38, the page
directory index bits 21..29 and the page table index bits 12..20.  An entry
without the Present bit stops the walk; a PDPT entry with the PageSize bit maps
a 1 GiB page and a page-directory entry with it a 2 MiB page.  Write and user
access are allowed when every entry on the path allows them. -/
def pageWalk (read64 : Nat → Option Nat) (cr3 v : Nat) : Option Translation :=
  (read64 (pteAddr cr3 + 8 * ((v >>> 39) % 512))).bind fun pml4e =>
  if pml4e &&& PTE_P = 0 then none else
  (read64 (pteAddr pml4e + 8 * ((v >>> 30) % 512))).bind fun pdpte =>
  if pdpte &&& PTE_P = 0 then none else
  let rw3 := decide (pml4e &&& PTE_RW ≠ 0) && decide (pdpte &&& PTE_RW ≠ 0)
  let us3 := decide (pml4e &&& PTE_US ≠ 0) && decide (pdpte &&& PTE_US ≠ 0)
  if pdpte &&& PTE_PS ≠ 0 then
    some { gpa := (pdpte &&& 0x000fffffc0000000) + v % 2 ^ 30, writable := rw3, user := us3 }
  else
  (read64 (pteAddr pdpte + 8 * ((v >>> 21) % 512))).bind fun pde =>
  if pde &&& PTE_P = 0 then none else
  let rw2 := rw3 && decide (pde &&& PTE_RW ≠ 0)
  let us2 := us3 && decide (pde &&& PTE_US ≠ 0)
  if pde &&& PTE_PS ≠ 0 then
    some { gpa := (pde &&& 0x000fffffffe00000) + v % 2 ^ 21, writable := rw2, user := us2 }
  else
  (read64 (pteAddr pde + 8 * ((v >>> 12) % 512))).bind fun pte =>
  if pte &&& PTE_P = 0 then none else
  some { gpa := pteAddr pte + v % 2 ^ 12,
         writable := rw2 && decide (pte &&& PTE_RW ≠ 0),
         user := us2 && decide (pte &&& PTE_US ≠ 0) }

/-- A run in which every step succeeds: every `HRESULT` is `S_OK`, the
allocator returns buffers of the requested sizes filled with `0xcc`, and the
virtual processor exits with reason `0x1005`. -/
def samplePlatform : Platform :=
  { getCapability := 0, HypervisorPresent := true, createPartition := 0,
    setProcessorCount := 0, setExtendedVmExits := 0, setupPartition := 0,
    kernelAlloc := some { pml4 := List.replicate 512 0xcccccccccccccccc,
                          pdpt := List.replicate 512 0xcccccccccccccccc },
    mapKernel := 0, userAlloc := some (List.replicate 4096 0xcc), mapUser := 0,
    createVirtualProcessor := 0, setRegisters := 0, runVirtualProcessor := 0,
    ExitReason := 0x1005 }

/-- The alignment and size an allocation requests, or the guest-physical base
and size a mapping covers; `none` for the other calls. -/
def Call.extent : Call → Option (CallKind × Nat × Nat)
  | .aligned_alloc alignment size => some (.alignedAlloc, alignment, size)
  | .WHvMapGpaRange _ gpa size _ => some (.mapGpaRange, gpa, size)
  | _ => none

/-! ## Facts about the run -/

theorem user_start_eq : user_start = 4096 := by decide

theorem kernel_start_eq : kernel_start = 2 ^ 30 := by decide

theorem pml4_entry0_eq : pml4_entry0 = 0x40001007 := by decide

theorem pdpt_entry0_eq : pdpt_entry0 = 0x87 := by decide

theorem page_size_eq : toSizeT (longValue (KiB LONG_BITS 4)) = 4096 := by decide

theorem page_mask_eq : page_mask = 4095 := by decide

theorem sizeof_kernel_eq : sizeof_kernel = 8192 := by decide

theorem kernel_size_assertion : sizeof_kernel &&& page_mask = 0 := by decide

theorem main_eq_specOutcome (hc : Nat) (p : Platform) : main hc p = specOutcome hc p := by
  unfold main specOutcome firstFailure fullCalls successCalls dispatchOutput
  simp only [kernel_size_assertion, ne_eq, not_true_eq_false, if_false]
  simp only [page_size_eq, sizeof_kernel_eq, user_start_eq, kernel_start_eq]
  rcases p with ⟨gc, hp, cp, spc, sev, sp, ka, mk, ua, mu, cvp, sr, rvp, er⟩
  cases hp
  · simp [OR, panic, programOrder, Step.ok, Step.index, Step.message, World.call,
      World.start, World.fputs_stderr, World.printf, World.puts, *]
  by_cases h1 : 0 ≤ cp
  swap
  · simp [OR, panic, programOrder, Step.ok, Step.index, Step.message, World.call,
      World.start, World.fputs_stderr, World.printf, World.puts, *]
  by_cases h2 : 0 ≤ spc
  swap
  · simp [OR, panic, programOrder, Step.ok, Step.index, Step.message, World.call,
      World.start, World.fputs_stderr, World.printf, World.puts, *]
  by_cases h3 : 0 ≤ sev
  swap
  · simp [OR, panic, programOrder, Step.ok, Step.index, Step.message, World.call,
      World.start, World.fputs_stderr, World.printf, World.puts, *]
  by_cases h4 : 0 ≤ sp
  swap
  · simp [OR, panic, programOrder, Step.ok, Step.index, Step.message, World.call,
      World.start, World.fputs_stderr, World.printf, World.puts, *]
  cases ka
  · simp [OR, panic, programOrder, Step.ok, Step.index, Step.message, World.call,
      World.start, World.fputs_stderr, World.printf, World.puts, *]
  by_cases h5 : 0 ≤ mk
  swap
  · simp [OR, panic, programOrder, Step.ok, Step.index, Step.message, World.call,
      World.start, World.fputs_stderr, World.printf, World.puts, *]
  cases ua
  · simp [OR, panic, programOrder, Step.ok, Step.index, Step.message, World.call,
      World.start, World.fputs_stderr, World.printf, World.puts, *]
  by_cases h6 : 0 ≤ mu
  swap
  · simp [OR, panic, programOrder, Step.ok, Step.index, Step.message, World.call,
      World.start, World.fputs_stderr, World.printf, World.puts, *]
  by_cases h7 : 0 ≤ cvp
  swap
  · simp [OR, panic, programOrder, Step.ok, Step.index, Step.message, World.call,
      World.start, World.fputs_stderr, World.printf, World.puts, *]
  by_cases h8 : 0 ≤ sr
  swap
  · simp [OR, panic, programOrder, Step.ok, Step.index, Step.message, World.call,
      World.start, World.fputs_stderr, World.printf, World.puts, *]
  by_cases h9 : 0 ≤ rvp
  swap
  · simp [OR, panic, programOrder, Step.ok, Step.index, Step.message, World.call,
      World.start, World.fputs_stderr, World.printf, World.puts, *]
  by_cases h10 : er = hc
  · simp [OR, panic, programOrder, Step.ok, Step.index, Step.message, World.call,
      World.start, World.fputs_stderr, World.printf, World.puts, *]
    rw [String.append_assoc]
    rfl
  · simp [OR, panic, programOrder, Step.ok, Step.index, Step.message, World.call,
      World.start, World.fputs_stderr, World.printf, World.puts, *]

theorem main_success (hc : Nat) (p : Platform) (h : p.allSucceed) :
    main hc p =
      { termination := .returned 0,
        world := { calls := fullCalls p, stdout := dispatchOutput hc p.ExitReason,
                   stderr := "" } } := by
  obtain ⟨a1, a2, a3, a4, a5, a6, a7, a8, a9, a10, a11, a12⟩ := h
  rw [main_eq_specOutcome]
  simp [specOutcome, firstFailure, programOrder, Step.ok, *]

theorem fullCalls_eq (p : Platform) (k : kernel) (u : List Nat)
    (hk : p.kernelAlloc = some k) (hu : p.userAlloc = some u) :
    fullCalls p = successCalls k u := by
  simp [fullCalls, hk, hu]

theorem sample_run_output :
    (main 0x1005 samplePlatform).world.stdout =
      "Exit reason: 1005\nThe vmcall instruction is executed\n" := by
  rw [main_success _ _ (by decide)]
  decide

theorem mappings_successCalls (k : kernel) (u : List Nat) :
    mappings (successCalls k u) =
      [{ source := .kernel (build_kernel k), gpa := 2 ^ 30, size := 8192,
         flags := [.WHvMapGpaRangeFlagRead, .WHvMapGpaRangeFlagWrite] },
       { source := .user_page (build_user_page u), gpa := 4096, size := 4096,
         flags := [.WHvMapGpaRangeFlagRead, .WHvMapGpaRangeFlagExecute] }] := rfl

theorem gpaRead8_kernel (k : kernel) (u : List Nat) (off : Nat) (h : off < 8192) :
    gpaRead8 (mappings (successCalls k u)) (2 ^ 30 + off) =
      some ((HostBuffer.kernel (build_kernel k)).byte off) := by
  rw [mappings_successCalls]
  have hc : decide ((2 : Nat) ^ 30 ≤ 2 ^ 30 + off ∧ 2 ^ 30 + off < 2 ^ 30 + 8192) = true := by
    simp; omega
  simp only [gpaRead8, List.find?, hc, Nat.add_sub_cancel_left]

theorem gpaRead8_user (k : kernel) (u : List Nat) (off : Nat) (h : off < 4096) :
    gpaRead8 (mappings (successCalls k u)) (4096 + off) =
      some ((build_user_page u).getD off 0) := by
  rw [mappings_successCalls]
  have hc1 : decide ((2 : Nat) ^ 30 ≤ 4096 + off ∧ 4096 + off < 2 ^ 30 + 8192) = false := by
    simp; omega
  have hc2 : decide (4096 ≤ 4096 + off ∧ 4096 + off < 4096 + 4096) = true := by
    simp; omega
  simp only [gpaRead8, List.find?, hc1, hc2, Nat.add_sub_cancel_left, HostBuffer.byte]

theorem leByte_sum (w : Nat) (hw : w < 2 ^ 64) :
    leByte w 0 + 256 * (leByte w 1 + 256 * (leByte w 2 + 256 * (leByte w 3 + 256 *
      (leByte w 4 + 256 * (leByte w 5 + 256 * (leByte w 6 + 256 * (leByte w 7 + 256 * 0)))))))
      = w := by
  unfold leByte
  simp only [Nat.shiftRight_eq_div_pow]
  norm_num
  omega

theorem range8 : List.range 8 = [0, 1, 2, 3, 4, 5, 6, 7] := by decide

theorem build_kernel_pml4_getD (k : kernel) (i : Nat) :
    (build_kernel k).pml4.getD i 0 = if i = 0 then pml4_entry0 else 0 := by
  simp only [build_kernel, memset_kernel, List.getD_eq_getElem?_getD, List.getElem?_set,
    List.getElem?_replicate, List.length_replicate]
  by_cases h : i = 0
  · subst h; simp
  · have h0 : ¬ (0 = i) := fun e => h e.symm
    simp only [h, h0, if_false]
    split <;> rfl

theorem build_kernel_pdpt_getD (k : kernel) (i : Nat) :
    (build_kernel k).pdpt.getD i 0 = if i = 0 then pdpt_entry0 else 0 := by
  simp only [build_kernel, memset_kernel, List.getD_eq_getElem?_getD, List.getElem?_set,
    List.getElem?_replicate, List.length_replicate]
  by_cases h : i = 0
  · subst h; simp
  · have h0 : ¬ (0 = i) := fun e => h e.symm
    simp only [h, h0, if_false]
    split <;> rfl

theorem build_kernel_pml4_lt (k : kernel) (i : Nat) :
    (build_kernel k).pml4.getD i 0 < 2 ^ 64 := by
  rw [build_kernel_pml4_getD, pml4_entry0_eq]
  split <;> decide

theorem build_kernel_pdpt_lt (k : kernel) (i : Nat) :
    (build_kernel k).pdpt.getD i 0 < 2 ^ 64 := by
  rw [build_kernel_pdpt_getD, pdpt_entry0_eq]
  split <;> decide

theorem gpaRead64_pml4 (k : kernel) (u : List Nat) (i : Nat) (hi : i < 512) :
    gpaRead64 (mappings (successCalls k u)) (2 ^ 30 + 8 * i) =
      some ((build_kernel k).pml4.getD i 0) := by
  have hb : ∀ j, j < 8 →
      gpaRead8 (mappings (successCalls k u)) (2 ^ 30 + 8 * i + j) =
        some (leByte ((build_kernel k).pml4.getD i 0) j) := by
    intro j hj
    rw [Nat.add_assoc, gpaRead8_kernel k u (8 * i + j) (by omega)]
    have h1 : 8 * i + j < offsetof_pdpt := by simp only [offsetof_pdpt]; omega
    have h2 : (8 * i + j) / 8 = i := by omega
    have h3 : (8 * i + j) % 8 = j := by omega
    simp only [HostBuffer.byte, h1, if_true, h2, h3]
  unfold gpaRead64
  rw [range8]
  simp only [List.foldr, hb 0 (by omega), hb 1 (by omega), hb 2 (by omega), hb 3 (by omega),
    hb 4 (by omega), hb 5 (by omega), hb 6 (by omega), hb 7 (by omega), Option.some_bind,
    Option.map_some']
  rw [leByte_sum _ (build_kernel_pml4_lt k i)]

theorem gpaRead64_pdpt (k : kernel) (u : List Nat) (i : Nat) (hi : i < 512) :
    gpaRead64 (mappings (successCalls k u)) (2 ^ 30 + 4096 + 8 * i) =
      some ((build_kernel k).pdpt.getD i 0) := by
  have hb : ∀ j, j < 8 →
      gpaRead8 (mappings (successCalls k u)) (2 ^ 30 + 4096 + 8 * i + j) =
        some (leByte ((build_kernel k).pdpt.getD i 0) j) := by
    intro j hj
    rw [Nat.add_assoc, Nat.add_assoc, gpaRead8_kernel k u (4096 + (8 * i + j)) (by omega)]
    have h1 : ¬ (4096 + (8 * i + j) < offsetof_pdpt) := by simp only [offsetof_pdpt]; omega
    have h2 : (4096 + (8 * i + j) - offsetof_pdpt) / 8 = i := by
      simp only [offsetof_pdpt]; omega
    have h3 : (4096 + (8 * i + j)) % 8 = j := by omega
    simp only [HostBuffer.byte, h1, if_false, h2, h3]
  unfold gpaRead64
  rw [range8]
  simp only [List.foldr, hb 0 (by omega), hb 1 (by omega), hb 2 (by omega), hb 3 (by omega),
    hb 4 (by omega), hb 5 (by omega), hb 6 (by omega), hb 7 (by omega), Option.some_bind,
    Option.map_some']
  rw [leByte_sum _ (build_kernel_pdpt_lt k i)]

theorem read_pml4_entry0 (k : kernel) (u : List Nat) :
    gpaRead64 (mappings (successCalls k u)) (2 ^ 30) = some 0x40001007 := by
  have h := gpaRead64_pml4 k u 0 (by omega)
  rw [build_kernel_pml4_getD, pml4_entry0_eq] at h
  simpa using h

theorem read_pdpt_entry0 (k : kernel) (u : List Nat) :
    gpaRead64 (mappings (successCalls k u)) 0x40001000 = some 0x87 := by
  have h := gpaRead64_pdpt k u 0 (by omega)
  rw [build_kernel_pdpt_getD, pdpt_entry0_eq] at h
  simpa using h

theorem low_indices (v : Nat) (hv : v < 2 ^ 30) :
    (v >>> 39) % 512 = 0 ∧ (v >>> 30) % 512 = 0 ∧ v % 2 ^ 30 = v := by
  refine ⟨?_, ?_, Nat.mod_eq_of_lt hv⟩
  · rw [Nat.shiftRight_eq_div_pow, Nat.div_eq_of_lt (by omega)]
  · rw [Nat.shiftRight_eq_div_pow, Nat.div_eq_of_lt hv]

theorem pageWalk_large_page (read64 : Nat → Option Nat) (cr3 v e4 e3 : Nat)
    (h4 : read64 (pteAddr cr3 + 8 * ((v >>> 39) % 512)) = some e4)
    (hp4 : ¬ (e4 &&& PTE_P = 0))
    (h3 : read64 (pteAddr e4 + 8 * ((v >>> 30) % 512)) = some e3)
    (hp3 : ¬ (e3 &&& PTE_P = 0))
    (hps : e3 &&& PTE_PS ≠ 0) :
    pageWalk read64 cr3 v =
      some { gpa := (e3 &&& 0x000fffffc0000000) + v % 2 ^ 30,
             writable := decide (e4 &&& PTE_RW ≠ 0) && decide (e3 &&& PTE_RW ≠ 0),
             user := decide (e4 &&& PTE_US ≠ 0) && decide (e3 &&& PTE_US ≠ 0) } := by
  unfold pageWalk
  rw [h4, Option.some_bind, if_neg hp4, h3, Option.some_bind, if_neg hp3]
  simp only []
  rw [if_pos hps]

theorem pageWalk_low (k : kernel) (u : List Nat) (v : Nat) (hv : v < 2 ^ 30) :
    pageWalk (gpaRead64 (mappings (successCalls k u))) (2 ^ 30) v =
      some { gpa := v, writable := true, user := true } := by
  obtain ⟨h1, h2, h3⟩ := low_indices v hv
  have e1 : pteAddr (2 ^ 30) + 8 * 0 = 2 ^ 30 := by decide
  have e2 : pteAddr 0x40001007 + 8 * 0 = 0x40001000 := by decide
  have r4 : gpaRead64 (mappings (successCalls k u)) (pteAddr (2 ^ 30) + 8 * ((v >>> 39) % 512))
      = some 0x40001007 := by
    rw [h1, e1]; exact read_pml4_entry0 k u
  have r3 : gpaRead64 (mappings (successCalls k u)) (pteAddr 0x40001007 + 8 * ((v >>> 30) % 512))
      = some 0x87 := by
    rw [h2, e2]; exact read_pdpt_entry0 k u
  rw [pageWalk_large_page _ _ _ _ _ r4 (by decide) r3 (by decide) (by decide), h3]
  have f4 : (decide ((0x40001007 : Nat) &&& PTE_RW ≠ 0) && decide ((0x87 : Nat) &&& PTE_RW ≠ 0))
      = true := by decide
  have f5 : (decide ((0x40001007 : Nat) &&& PTE_US ≠ 0) && decide ((0x87 : Nat) &&& PTE_US ≠ 0))
      = true := by decide
  have f6 : (0x87 : Nat) &&& 0x000fffffc0000000 = 0 := by decide
  rw [f4, f5, f6, Nat.zero_add]

/-! ## Hexadecimal output -/

theorem hexDigit_spec :
    ∀ d, d < 16 → isLowerHexDigit (hexDigit d) = true ∧ hexDigitValue (hexDigit d) = d ∧
      (hexDigit d = Char.ofNat 48 → d = 0) := by
  decide

theorem hexValue_append_singleton (ds : List Char) (c : Char) :
    hexValue (ds ++ [c]) = 16 * hexValue ds + hexDigitValue c := by
  simp [hexValue, List.foldl_append]

theorem hexDigitsAux_spec (fuel : Nat) :
    ∀ (n : Nat) (acc : List Char), n < 16 ^ (fuel + 1) →
      ∃ ds, hexDigitsAux (fuel + 1) n acc = ds ++ acc ∧ hexValue ds = n ∧
        (∀ c ∈ ds, isLowerHexDigit c = true) ∧ ds ≠ [] ∧
        (ds.head? = some (Char.ofNat 48) → n = 0) ∧ ds.length ≤ fuel + 1 := by
  induction fuel with
  | zero =>
    intro n acc h
    have hn : n < 16 := by simpa using h
    obtain ⟨h1, h2, h3⟩ := hexDigit_spec n hn
    refine ⟨[hexDigit n], ?_, ?_, ?_, by simp, ?_, by simp⟩
    · simp [hexDigitsAux, hn]
    · simp [hexValue, h2]
    · intro c hc
      simp only [List.mem_singleton] at hc
      rw [hc]; exact h1
    · intro hh
      simp only [List.head?_cons, Option.some.injEq] at hh
      exact h3 hh
  | succ fuel ih =>
    intro n acc h
    by_cases hn : n < 16
    · obtain ⟨h1, h2, h3⟩ := hexDigit_spec n hn
      refine ⟨[hexDigit n], ?_, ?_, ?_, by simp, ?_, by simp⟩
      · simp [hexDigitsAux, hn]
      · simp [hexValue, h2]
      · intro c hc
        simp only [List.mem_singleton] at hc
        rw [hc]; exact h1
      · intro hh
        simp only [List.head?_cons, Option.some.injEq] at hh
        exact h3 hh
    · have hdiv : n / 16 < 16 ^ (fuel + 1) := by
        rw [Nat.div_lt_iff_lt_mul (by decide)]
        calc n < 16 ^ (fuel + 1 + 1) := h
          _ = 16 ^ (fuel + 1) * 16 := by rw [Nat.pow_succ]
      obtain ⟨ds, e, hv, hall, hne, hhead, hlen⟩ := ih (n / 16) (hexDigit (n % 16) :: acc) hdiv
      obtain ⟨h1, h2, _⟩ := hexDigit_spec (n % 16) (Nat.mod_lt _ (by decide))
      refine ⟨ds ++ [hexDigit (n % 16)], ?_, ?_, ?_, by simp, ?_, ?_⟩
      · rw [hexDigitsAux, if_neg hn, e]
        simp
      · rw [hexValue_append_singleton, hv, h2]
        omega
      · intro c hc
        rcases List.mem_append.1 hc with hc | hc
        · exact hall c hc
        · simp only [List.mem_singleton] at hc
          rw [hc]; exact h1
      · intro hh
        cases ds with
        | nil => exact absurd rfl hne
        | cons d ds =>
          have : n / 16 = 0 := hhead (by simpa using hh)
          omega
      · simp only [List.length_append, List.length_singleton]
        omega

theorem printf_x_spec (r : Nat) (hr : r < 2 ^ 32) :
    printf_x r = String.mk (hexDigitsAux 8 r []) ∧
    hexValue (hexDigitsAux 8 r []) = r ∧
    (∀ c ∈ hexDigitsAux 8 r [], isLowerHexDigit c = true) ∧
    hexDigitsAux 8 r [] ≠ [] ∧
    ((hexDigitsAux 8 r []).head? = some (Char.ofNat 48) → r = 0) := by
  obtain ⟨ds, e, hv, hall, hne, hhead, _⟩ := hexDigitsAux_spec 7 r [] (by omega)
  rw [List.append_nil] at e
  refine ⟨?_, ?_, ?_, ?_, ?_⟩
  · unfold printf_x
    rw [Nat.mod_eq_of_lt hr]
  · rw [e]; exact hv
  · rw [e]; exact hall
  · rw [e]; exact hne
  · rw [e]; exact hhead

/-! ## Steps and failures -/

theorem firstFailure_eq_none_iff (p : Platform) : firstFailure p = none ↔ p.allSucceed := by
  simp only [firstFailure, programOrder, List.find?_eq_none, Platform.allSucceed]
  constructor
  · intro h
    have := h .capabilityCheck (by simp)
    have := h .createPartition (by simp)
    have := h .setProcessorCount (by simp)
    have := h .setExtendedExits (by simp)
    have := h .setupPartition (by simp)
    have := h .allocateKernel (by simp)
    have := h .mapKernel (by simp)
    have := h .allocateUser (by simp)
    have := h .mapUser (by simp)
    have := h .createVcpu (by simp)
    have := h .setRegisters (by simp)
    have := h .runVcpu (by simp)
    simp_all [Step.ok]
  · rintro ⟨a1, a2, a3, a4, a5, a6, a7, a8, a9, a10, a11, a12⟩ s _
    cases s <;> simp [Step.ok, *]

theorem firstFailure_eq_some (p : Platform) (s : Step) (h : firstFailure p = some s) :
    s ∈ programOrder ∧ s.ok p = false ∧ ∀ t : Step, t.index < s.index → t.ok p = true := by
  have hmem : s ∈ programOrder := by cases s <;> simp [programOrder]
  have hok : s.ok p = false := by
    have := (List.find?_eq_some.1 h).1
    simpa using this
  refine ⟨hmem, hok, ?_⟩
  intro t ht
  simp only [firstFailure, programOrder] at h
  cases e0 : Step.ok p .capabilityCheck
  · simp only [List.find?, e0, Bool.not_true, Bool.not_false, Option.some.injEq] at h
    subst h
    cases t <;> simp only [Step.index] at ht <;> omega
  cases e1 : Step.ok p .createPartition
  · simp only [List.find?, e0, e1, Bool.not_true, Bool.not_false, Option.some.injEq] at h
    subst h
    cases t <;> simp only [Step.index] at ht <;> first | omega | assumption
  cases e2 : Step.ok p .setProcessorCount
  · simp only [List.find?, e0, e1, e2, Bool.not_true, Bool.not_false, Option.some.injEq] at h
    subst h
    cases t <;> simp only [Step.index] at ht <;> first | omega | assumption
  cases e3 : Step.ok p .setExtendedExits
  · simp only [List.find?, e0, e1, e2, e3, Bool.not_true, Bool.not_false, Option.some.injEq] at h
    subst h
    cases t <;> simp only [Step.index] at ht <;> first | omega | assumption
  cases e4 : Step.ok p .setupPartition
  · simp only [List.find?, e0, e1, e2, e3, e4, Bool.not_true, Bool.not_false, Option.some.injEq] at h
    subst h
    cases t <;> simp only [Step.index] at ht <;> first | omega | assumption
  cases e5 : Step.ok p .allocateKernel
  · simp only [List.find?, e0, e1, e2, e3, e4, e5, Bool.not_true, Bool.not_false, Option.some.injEq] at h
    subst h
    cases t <;> simp only [Step.index] at ht <;> first | omega | assumption
  cases e6 : Step.ok p .mapKernel
  · simp only [List.find?, e0, e1, e2, e3, e4, e5, e6, Bool.not_true, Bool.not_false, Option.some.injEq] at h
    subst h
    cases t <;> simp only [Step.index] at ht <;> first | omega | assumption
  cases e7 : Step.ok p .allocateUser
  · simp only [List.find?, e0, e1, e2, e3, e4, e5, e6, e7, Bool.not_true, Bool.not_false, Option.some.injEq] at h
    subst h
    cases t <;> simp only [Step.index] at ht <;> first | omega | assumption
  cases e8 : Step.ok p .mapUser
  · simp only [List.find?, e0, e1, e2, e3, e4, e5, e6, e7, e8, Bool.not_true, Bool.not_false, Option.some.injEq] at h
    subst h
    cases t <;> simp only [Step.index] at ht <;> first | omega | assumption
  cases e9 : Step.ok p .createVcpu
  · simp only [List.find?, e0, e1, e2, e3, e4, e5, e6, e7, e8, e9, Bool.not_true, Bool.not_false, Option.some.injEq] at h
    subst h
    cases t <;> simp only [Step.index] at ht <;> first | omega | assumption
  cases e10 : Step.ok p .setRegisters
  · simp only [List.find?, e0, e1, e2, e3, e4, e5, e6, e7, e8, e9, e10, Bool.not_true, Bool.not_false, Option.some.injEq] at h
    subst h
    cases t <;> simp only [Step.index] at ht <;> first | omega | assumption
  cases e11 : Step.ok p .runVcpu
  · simp only [List.find?, e0, e1, e2, e3, e4, e5, e6, e7, e8, e9, e10, e11, Bool.not_true, Bool.not_false, Option.some.injEq] at h
    subst h
    cases t <;> simp only [Step.index] at ht <;> first | omega | assumption
  simp [List.find?, e0, e1, e2, e3, e4, e5, e6, e7, e8, e9, e10, e11] at h

/-! ## Shared lemmas about the calls of a run -/

theorem main_calls_success (hc : Nat) (p : Platform) (h : p.allSucceed) :
    ∃ k u, p.kernelAlloc = some k ∧ p.userAlloc = some u ∧
      (main hc p).world.calls = successCalls k u := by
  obtain ⟨k, hk⟩ := Option.isSome_iff_exists.1 h.2.1
  obtain ⟨u, hu⟩ := Option.isSome_iff_exists.1 h.2.2.1
  exact ⟨k, u, hk, hu, by rw [main_success hc p h, fullCalls_eq p k u hk hu]⟩

theorem main_calls_initial (hc : Nat) (p : Platform) :
    (main hc p).world.calls <+: fullCalls p := by
  rw [main_eq_specOutcome]
  unfold specOutcome
  cases firstFailure p with
  | none => exact List.prefix_refl _
  | some s => exact List.take_prefix _ _

theorem programmedRegister_successCalls (k : kernel) (u : List Nat) (r : WHV_REGISTER_NAME) :
    programmedRegister (successCalls k u) r = lookupRegister regname regvalue RegNum r := rfl

theorem programmedRegister_main (hc : Nat) (p : Platform) (h : p.allSucceed)
    (r : WHV_REGISTER_NAME) :
    programmedRegister (main hc p).world.calls r = lookupRegister regname regvalue RegNum r := by
  obtain ⟨k, u, _, _, e⟩ := main_calls_success hc p h
  rw [e, programmedRegister_successCalls]

theorem testBit_iff_mem (n : Nat) (bits : List Nat) (hn : n < 2 ^ 64)
    (hb : ∀ b ∈ bits, b < 64) (h : ∀ b, b < 64 → (n.testBit b = true ↔ b ∈ bits)) :
    ∀ b, n.testBit b = true ↔ b ∈ bits := by
  intro b
  by_cases hlt : b < 64
  · exact h b hlt
  · have h64 : 64 ≤ b := Nat.le_of_not_lt hlt
    have hf : n.testBit b = false :=
      Nat.testBit_lt_two_pow (Nat.lt_of_lt_of_le hn (Nat.pow_le_pow_right (by decide) h64))
    constructor
    · intro ht; rw [hf] at ht; cases ht
    · intro hm; exact absurd (hb b hm) hlt

theorem build_kernel_pml4_getElem? (k : kernel) (i : Nat) :
    (build_kernel k).pml4[i]? =
      if i = 0 then some pml4_entry0 else if i < 512 then some 0 else none := by
  simp only [build_kernel, memset_kernel, List.getElem?_set, List.getElem?_replicate,
    List.length_replicate]
  by_cases h : i = 0
  · subst h; simp
  · have h0 : ¬ (0 = i) := fun e => h e.symm
    simp only [h, h0, if_false]

theorem build_kernel_pdpt_getElem? (k : kernel) (i : Nat) :
    (build_kernel k).pdpt[i]? =
      if i = 0 then some pdpt_entry0 else if i < 512 then some 0 else none := by
  simp only [build_kernel, memset_kernel, List.getElem?_set, List.getElem?_replicate,
    List.length_replicate]
  by_cases h : i = 0
  · subst h; simp
  · have h0 : ¬ (0 = i) := fun e => h e.symm
    simp only [h, h0, if_false]

/-! ## The claims -/

/-- C1: after the `memset` and the two stores, `pml4[0]` is `0x40001007`, whose
address field (bits 12..51) is the guest-physical address of `pdpt`,
`kernel_start + offsetof(struct kernel, pdpt) = 2^30 + 4096`, and whose flag
bits are exactly Present, Writable and User; `pdpt[0]` is `0x87`, with address
field 0 and flag bits exactly Present, Writable, User and PageSize; both tables
have 512 entries and every entry at an index from 1 to 511 is zero.  This structure is the one a
run in which every step succeeds maps at `kernel_start`. -/
theorem C1_kernel_tables (kernel0 : kernel) :
    (build_kernel kernel0).pml4.length = 512 ∧ (build_kernel kernel0).pdpt.length = 512 ∧
    (build_kernel kernel0).pml4[0]? = some 0x40001007 ∧
    pteAddr 0x40001007 = kernel_start + offsetof_pdpt ∧
    kernel_start + offsetof_pdpt = 2 ^ 30 + 4096 ∧
    pteFlags 0x40001007 = PTE_P ||| PTE_RW ||| PTE_US ∧
    (∀ b, (pteFlags 0x40001007).testBit b = true ↔ b ∈ [0, 1, 2]) ∧
    (build_kernel kernel0).pdpt[0]? = some 0x87 ∧
    pteAddr 0x87 = 0 ∧
    pteFlags 0x87 = PTE_P ||| PTE_RW ||| PTE_US ||| PTE_PS ∧
    (∀ b, (pteFlags 0x87).testBit b = true ↔ b ∈ [0, 1, 2, 7]) ∧
    (∀ i, 1 ≤ i → i ≤ 511 →
      (build_kernel kernel0).pml4[i]? = some 0 ∧ (build_kernel kernel0).pdpt[i]? = some 0) ∧
    (∀ (hc : Nat) (p : Platform), p.allSucceed → p.kernelAlloc = some kernel0 →
      Call.WHvMapGpaRange (.kernel (build_kernel kernel0)) kernel_start sizeof_kernel
        [.WHvMapGpaRangeFlagRead, .WHvMapGpaRangeFlagWrite] ∈ (main hc p).world.calls) := by
  refine ⟨by simp only [build_kernel, memset_kernel, List.length_set, List.length_replicate],
    by simp only [build_kernel, memset_kernel, List.length_set, List.length_replicate],
    ?_, by decide, by decide, by decide,
    testBit_iff_mem _ _ (by decide) (by decide) (by decide),
    ?_, by decide, by decide,
    testBit_iff_mem _ _ (by decide) (by decide) (by decide), ?_, ?_⟩
  · rw [build_kernel_pml4_getElem?, pml4_entry0_eq]; rfl
  · rw [build_kernel_pdpt_getElem?, pdpt_entry0_eq]; rfl
  · intro i h1 h2
    have hne : ¬ (i = 0) := by omega
    have hlt : i < 512 := by omega
    rw [build_kernel_pml4_getElem?, build_kernel_pdpt_getElem?]
    simp only [hne, hlt, if_false, if_true, and_self]
  · intro hc p h hk0
    obtain ⟨k, u, hk, _, e⟩ := main_calls_success hc p h
    rw [hk] at hk0
    cases hk0
    rw [e, kernel_start_eq, sizeof_kernel_eq]
    simp [successCalls]

/-- C2: in a run where every step succeeds, the CR3 value programmed is
`kernel_start + offsetof(struct kernel, pml4) = 2^30`, the guest-physical
address at which the entries of the top-level table are read back, and the
long-mode page walk from that CR3 through guest-physical memory translates
every virtual address below `2^30` to itself with write and user access; in
particular every address of the user code region `[4096, 8192)`. -/
theorem C2_identity_mapping (hc : Nat) (p : Platform) (h : p.allSucceed) :
    programmedRegister (main hc p).world.calls .WHvX64RegisterCr3 =
      some (.Reg64 (kernel_start + offsetof_pml4)) ∧
    kernel_start + offsetof_pml4 = 2 ^ 30 ∧
    (∀ k0, p.kernelAlloc = some k0 → ∀ i, i < 512 →
      gpaRead64 (mappings (main hc p).world.calls) (kernel_start + offsetof_pml4 + 8 * i) =
        some ((build_kernel k0).pml4.getD i 0)) ∧
    (∀ v, v < 2 ^ 30 →
      pageWalk (gpaRead64 (mappings (main hc p).world.calls)) (kernel_start + offsetof_pml4) v =
        some { gpa := v, writable := true, user := true }) ∧
    (∀ v, user_start ≤ v → v < user_start + 4096 →
      pageWalk (gpaRead64 (mappings (main hc p).world.calls)) (kernel_start + offsetof_pml4) v =
        some { gpa := v, writable := true, user := true }) := by
  obtain ⟨k, u, hk, hu, e⟩ := main_calls_success hc p h
  have hcr3 : kernel_start + offsetof_pml4 = 2 ^ 30 := by decide
  rw [programmedRegister_main hc p h, e, hcr3]
  refine ⟨by decide, rfl, ?_, ?_, ?_⟩
  · intro k0 hk0 i hi
    rw [hk] at hk0
    cases hk0
    exact gpaRead64_pml4 k u i hi
  · intro v hv
    exact pageWalk_low k u v hv
  · intro v _ hv
    rw [user_start_eq] at hv
    exact pageWalk_low k u v (by omega)

/-- Witness of C2 at the sample run. -/
theorem C2_identity_mapping_witness :
    samplePlatform.allSucceed ∧
    pageWalk (gpaRead64 (mappings (main 0x1005 samplePlatform).world.calls))
      (kernel_start + offsetof_pml4) 4096 =
        some { gpa := 4096, writable := true, user := true } :=
  ⟨by decide, (C2_identity_mapping 0x1005 samplePlatform (by decide)).2.2.2.1 4096 (by decide)⟩

/-- C3: the control-register values programmed are CR0 = `0x80000001` (only
bits 0 and 31), CR4 = `0x30` (only bits 4 and 5) and EFER = `0x500` (only bits
8 and 10), both in the value array and in the register call of every run in
which every step succeeds. -/
theorem C3_control_registers :
    CR0_PE ||| CR0_PG = 0x80000001 ∧ CR4_PSE ||| CR4_PAE = 0x30 ∧
    EFER_LME ||| EFER_LMA = 0x500 ∧
    regvalue[Cr0]? = some (some (.Reg64 0x80000001)) ∧
    regvalue[Cr4]? = some (some (.Reg64 0x30)) ∧
    regvalue[Efer]? = some (some (.Reg64 0x500)) ∧
    (∀ (hc : Nat) (p : Platform), p.allSucceed →
      programmedRegister (main hc p).world.calls .WHvX64RegisterCr0 =
        some (.Reg64 0x80000001) ∧
      programmedRegister (main hc p).world.calls .WHvX64RegisterCr4 = some (.Reg64 0x30) ∧
      programmedRegister (main hc p).world.calls .WHvX64RegisterEfer = some (.Reg64 0x500)) ∧
    (∀ b, (0x80000001 : Nat).testBit b = true ↔ b ∈ [0, 31]) ∧
    (∀ b, (0x30 : Nat).testBit b = true ↔ b ∈ [4, 5]) ∧
    (∀ b, (0x500 : Nat).testBit b = true ↔ b ∈ [8, 10]) := by
  refine ⟨by decide, by decide, by decide, by decide, by decide, by decide, ?_,
    testBit_iff_mem _ _ (by decide) (by decide) (by decide),
    testBit_iff_mem _ _ (by decide) (by decide) (by decide),
    testBit_iff_mem _ _ (by decide) (by decide) (by decide)⟩
  intro hc p h
  simp only [programmedRegister_main hc p h]
  exact ⟨by decide, by decide, by decide⟩

/-- C4: with the platform layout of the 16-bit attributes, the code segment
(`0xa0fb`) has an executable type, non-system 1, present 1, long 1 and default
size 0; the data segment (`0xc0f3`) has a non-executable, writable type,
non-system 1 and present 1; both have base 0 and limit `0xffff`; the selectors
`0x08` and `0x10` differ.  CS carries the code segment and SS, DS, ES the data
segment in every run in which every step succeeds. -/
theorem C4_segment_attributes :
    (∀ (hc : Nat) (p : Platform), p.allSucceed →
      programmedRegister (main hc p).world.calls .WHvX64RegisterCs =
        some (.Segment CodeSegment) ∧
      programmedRegister (main hc p).world.calls .WHvX64RegisterSs =
        some (.Segment DataSegment) ∧
      programmedRegister (main hc p).world.calls .WHvX64RegisterDs =
        some (.Segment DataSegment) ∧
      programmedRegister (main hc p).world.calls .WHvX64RegisterEs =
        some (.Segment DataSegment)) ∧
    CodeSegment.Attributes = 0xa0fb ∧
    typeExecutable (SegmentType CodeSegment.Attributes) = true ∧
    NonSystemSegment CodeSegment.Attributes = 1 ∧
    Present CodeSegment.Attributes = 1 ∧
    Long CodeSegment.Attributes = 1 ∧
    Default CodeSegment.Attributes = 0 ∧
    DataSegment.Attributes = 0xc0f3 ∧
    typeExecutable (SegmentType DataSegment.Attributes) = false ∧
    typeWritable (SegmentType DataSegment.Attributes) = true ∧
    NonSystemSegment DataSegment.Attributes = 1 ∧
    Present DataSegment.Attributes = 1 ∧
    CodeSegment.Base = 0 ∧ DataSegment.Base = 0 ∧
    CodeSegment.Limit = 0xffff ∧ DataSegment.Limit = 0xffff ∧
    CodeSegment.Selector = 0x08 ∧ DataSegment.Selector = 0x10 ∧
    CodeSegment.Selector ≠ DataSegment.Selector := by
  refine ⟨?_, by decide⟩
  intro hc p h
  simp only [programmedRegister_main hc p h]
  exact ⟨by decide, by decide, by decide, by decide⟩

/-- C5 as stated fails: the descriptor-privilege-level field (bits 5..6) of
the code attributes `0xa0fb` and of the data attributes `0xc0f3` is not 0. -/
theorem C5_ring0_counterexample :
    CodeSegment.Attributes = 0xa0fb ∧ DataSegment.Attributes = 0xc0f3 ∧
    DescriptorPrivilegeLevel 0xa0fb ≠ 0 ∧ DescriptorPrivilegeLevel 0xc0f3 ≠ 0 := by
  decide

/-- C5, amended: both segment descriptors programmed by `main` encode ring 3:
the descriptor-privilege-level field (bits 5..6 of the attributes) is 3 for
the code segment (`0xa0fb`, carried by CS) and 3 for the data segment
(`0xc0f3`, carried by SS, DS and ES). -/
theorem C5_segments_ring3 :
    regvalue[Cs]? = some (some (.Segment CodeSegment)) ∧
    regvalue[Ss]? = some (some (.Segment DataSegment)) ∧
    regvalue[Ds]? = some (some (.Segment DataSegment)) ∧
    regvalue[Es]? = some (some (.Segment DataSegment)) ∧
    CodeSegment.Attributes = 0xa0fb ∧ DataSegment.Attributes = 0xc0f3 ∧
    DescriptorPrivilegeLevel CodeSegment.Attributes = 3 ∧
    DescriptorPrivilegeLevel DataSegment.Attributes = 3 ∧
    (∀ (hc : Nat) (p : Platform), p.allSucceed →
      programmedRegister (main hc p).world.calls .WHvX64RegisterCs =
        some (.Segment CodeSegment) ∧
      programmedRegister (main hc p).world.calls .WHvX64RegisterSs =
        some (.Segment DataSegment)) := by
  refine ⟨by decide, by decide, by decide, by decide, rfl, rfl, by decide, by decide, ?_⟩
  intro hc p h
  simp only [programmedRegister_main hc p h]
  exact ⟨by decide, by decide⟩

/-- C6: in a run where every step succeeds, RIP is programmed with
`user_start = 4096`, the guest-physical base at which the user page is mapped;
`user_code` is the three bytes `0x0f, 0x01, 0xc1`, which fit in the 4096-byte
page; after the copy the page starts with these bytes, and the guest-physical
bytes at RIP, RIP+1 and RIP+2 are `0x0f`, `0x01`, `0xc1`. -/
theorem C6_entry_point_and_payload (hc : Nat) (p : Platform) (h : p.allSucceed) :
    programmedRegister (main hc p).world.calls .WHvX64RegisterRip =
      some (.Reg64 user_start) ∧
    user_start = 4096 ∧
    (mappings (main hc p).world.calls).map (fun m => (m.gpa, m.size)) =
      [(kernel_start, sizeof_kernel), (user_start, 4096)] ∧
    user_code = [0x0f, 0x01, 0xc1] ∧ sizeof_user_code = 3 ∧ sizeof_user_code ≤ 4096 ∧
    (∀ page0, p.userAlloc = some page0 →
      (build_user_page page0).take 3 = [0x0f, 0x01, 0xc1] ∧
      (build_user_page page0).drop 3 = page0.drop 3) ∧
    gpaRead8 (mappings (main hc p).world.calls) user_start = some 0x0f ∧
    gpaRead8 (mappings (main hc p).world.calls) (user_start + 1) = some 0x01 ∧
    gpaRead8 (mappings (main hc p).world.calls) (user_start + 2) = some 0xc1 := by
  obtain ⟨k, u, hk, hu, e⟩ := main_calls_success hc p h
  have hpage : ∀ page0 : List Nat, build_user_page page0 = 0x0f :: 0x01 :: 0xc1 :: page0.drop 3 :=
    fun _ => rfl
  rw [programmedRegister_main hc p h, e, user_start_eq]
  refine ⟨by decide, rfl, ?_, rfl, rfl, by decide, ?_, ?_, ?_, ?_⟩
  · rw [mappings_successCalls, kernel_start_eq, sizeof_kernel_eq]; rfl
  · intro page0 _
    rw [hpage]
    exact ⟨rfl, rfl⟩
  · rw [gpaRead8_user k u 0 (by decide), hpage]; rfl
  · rw [gpaRead8_user k u 1 (by decide), hpage]; rfl
  · rw [gpaRead8_user k u 2 (by decide), hpage]; rfl

/-- Witness of C6 at the sample run. -/
theorem C6_entry_point_and_payload_witness :
    samplePlatform.allSucceed ∧
    gpaRead8 (mappings (main 0x1005 samplePlatform).world.calls) user_start = some 0x0f :=
  ⟨by decide, (C6_entry_point_and_payload 0x1005 samplePlatform (by decide)).2.2.2.2.2.2.2.1⟩

/-- C7: the constants are computed without overflow in a 32-bit `long`
(`4 KiB = 4096`, `1 GiB = 2^30 < 2^31`); the bases `kernel_start = 2^30`,
`user_start = 4096` and the sizes `sizeof(struct kernel) = 8192`, `4096` are
multiples of 4096, so the assertion on `sizeof(*kernel)` holds; in every run
the allocations ask for alignment 4096 and the size that is then mapped; and
the guest-physical ranges `[2^30, 2^30 + 8192)` and `[4096, 8192)` are
disjoint. -/
theorem C7_alignment_and_disjointness :
    KiB LONG_BITS 4 = some 4096 ∧ GiB LONG_BITS 1 = some (2 ^ 30) ∧
    LONG_BITS = 32 ∧ ((2 : Int) ^ 30 < 2 ^ 31) ∧
    kernel_start = 2 ^ 30 ∧ sizeof_kernel = 8192 ∧ user_start = 4096 ∧
    kernel_start % 4096 = 0 ∧ sizeof_kernel % 4096 = 0 ∧ user_start % 4096 = 0 ∧
    (4096 : Nat) % 4096 = 0 ∧
    ((KiB LONG_BITS 4).bind fun a => subLong LONG_BITS a 1) = some 4095 ∧
    page_mask = 4096 - 1 ∧ sizeof_kernel &&& page_mask = 0 ∧
    (∀ (hc : Nat) (p : Platform),
      (main hc p).world.calls.filterMap Call.extent <+:
        [(.alignedAlloc, 4096, sizeof_kernel), (.mapGpaRange, kernel_start, sizeof_kernel),
         (.alignedAlloc, 4096, 4096), (.mapGpaRange, user_start, 4096)]) ∧
    (∀ (hc : Nat) (p : Platform), p.allSucceed →
      (main hc p).world.calls.filterMap Call.extent =
        [(.alignedAlloc, 4096, sizeof_kernel), (.mapGpaRange, kernel_start, sizeof_kernel),
         (.alignedAlloc, 4096, 4096), (.mapGpaRange, user_start, 4096)]) ∧
    (∀ g, ¬ ((kernel_start ≤ g ∧ g < kernel_start + sizeof_kernel) ∧
             (user_start ≤ g ∧ g < user_start + 4096))) := by
  have hfull : ∀ p : Platform, (fullCalls p).filterMap Call.extent =
      [(.alignedAlloc, 4096, sizeof_kernel), (.mapGpaRange, kernel_start, sizeof_kernel),
       (.alignedAlloc, 4096, 4096), (.mapGpaRange, user_start, 4096)] := by
    intro p
    rw [sizeof_kernel_eq, kernel_start_eq, user_start_eq]
    rfl
  have hmacros : KiB LONG_BITS 4 = some 4096 ∧ GiB LONG_BITS 1 = some (2 ^ 30) := by decide
  have hbases : kernel_start % 4096 = 0 ∧ sizeof_kernel % 4096 = 0 ∧ user_start % 4096 = 0 ∧
      (4096 : Nat) % 4096 = 0 := by decide
  refine ⟨hmacros.1, hmacros.2, rfl, by decide, kernel_start_eq, sizeof_kernel_eq, user_start_eq,
    hbases.1, hbases.2.1, hbases.2.2.1, hbases.2.2.2, by decide, page_mask_eq,
    kernel_size_assertion, ?_, ?_, ?_⟩
  · intro hc p
    rw [← hfull p]
    exact (main_calls_initial hc p).filterMap _
  · intro hc p h
    rw [← hfull p, main_success hc p h]
  · intro g
    rw [kernel_start_eq, sizeof_kernel_eq, user_start_eq]
    omega

/-- C8: for every assignment of the platform's answers, if the flag is true,
both allocations are non-null and every examined `HRESULT` is non-negative,
`main` issues all twelve steps, returns 0 and writes nothing to the error
stream, whatever the exit reason; otherwise it exits with status 1 at the first
failing step in program order, having issued exactly the steps up to and
including that one, with the single line `panic: ` and that step's message on
the error stream and nothing on the standard output. -/
theorem C8_first_failure (hc : Nat) (p : Platform) :
    programOrder.map Step.message =
      ["Windows Hypervisor Platform is not enabled", "create partition",
       "set partition property (cpu count)", "set partition property (vmexits)",
       "setup partition", "aligned_alloc", "map the kernel region", "aligned_alloc",
       "map the user region", "create virtual processor",
       "set virtual processor registers", "run virtual processor"] ∧
    programOrder.map Step.index = List.range 12 ∧
    (p.allSucceed →
      (main hc p).termination = .returned 0 ∧
      (main hc p).world.stderr = "" ∧
      (main hc p).world.calls.map Call.kind = programOrder.map Step.kind ∧
      (main hc p).world.stdout = dispatchOutput hc p.ExitReason) ∧
    (¬ p.allSucceed →
      ∃ s, s ∈ programOrder ∧ s.ok p = false ∧
        (∀ t : Step, t.index < s.index → t.ok p = true) ∧
        (main hc p).termination = .exited 1 ∧
        (main hc p).world.stderr = "panic: " ++ s.message ++ "\n" ∧
        (main hc p).world.stdout = "" ∧
        (main hc p).world.calls.map Call.kind = (programOrder.take (s.index + 1)).map Step.kind ∧
        (main hc p).world.calls.length = s.index + 1) := by
  have hkinds : (fullCalls p).map Call.kind = programOrder.map Step.kind := rfl
  have hlen : (fullCalls p).length = 12 := rfl
  refine ⟨by decide, by decide, ?_, ?_⟩
  · intro h
    rw [main_success hc p h]
    exact ⟨rfl, rfl, hkinds, rfl⟩
  · intro h
    cases hf : firstFailure p with
    | none => exact absurd ((firstFailure_eq_none_iff p).1 hf) h
    | some s =>
      obtain ⟨hmem, hok, hall⟩ := firstFailure_eq_some p s hf
      have hidx : s.index + 1 ≤ 12 := by cases s <;> simp [Step.index]
      rw [main_eq_specOutcome]
      unfold specOutcome
      rw [hf]
      refine ⟨s, hmem, hok, hall, rfl, rfl, rfl, ?_, ?_⟩
      · show ((fullCalls p).take (s.index + 1)).map Call.kind = _
        rw [List.map_take, List.map_take, hkinds]
      · show ((fullCalls p).take (s.index + 1)).length = _
        rw [List.length_take, hlen]
        omega

/-- C9: in a run where every step succeeds and the exit reason `r` is a
32-bit value, the standard output is `Exit reason: `, `r` in lowercase
hexadecimal (digits of `0123456789abcdef` that denote `r`, without a leading
zero unless `r` is 0) and a newline, followed by the line
`The vmcall instruction is executed` if and only if `r` is the hypercall exit
reason; the virtual processor is resumed exactly once and `main` returns 0
whatever `r` is. -/
theorem C9_dispatch_output (hc : Nat) (p : Platform) (h : p.allSucceed)
    (hr : p.ExitReason < 2 ^ 32) :
    (main hc p).world.stdout =
      "Exit reason: " ++ String.mk (hexDigitsAux 8 p.ExitReason []) ++ "\n" ++
        (if p.ExitReason = hc then "The vmcall instruction is executed\n" else "") ∧
    hexValue (hexDigitsAux 8 p.ExitReason []) = p.ExitReason ∧
    (∀ c ∈ hexDigitsAux 8 p.ExitReason [], isLowerHexDigit c = true) ∧
    hexDigitsAux 8 p.ExitReason [] ≠ [] ∧
    ((hexDigitsAux 8 p.ExitReason []).head? = some (Char.ofNat 48) → p.ExitReason = 0) ∧
    ((main hc p).world.stdout =
        "Exit reason: " ++ String.mk (hexDigitsAux 8 p.ExitReason []) ++ "\n" ++
          "The vmcall instruction is executed\n" ↔ p.ExitReason = hc) ∧
    ((main hc p).world.calls.filter
      (fun c => decide (c.kind = .runVirtualProcessor))).length = 1 ∧
    (main hc p).termination = .returned 0 ∧
    (main hc p).world.stderr = "" := by
  obtain ⟨e, hv, hall, hne, hhead⟩ := printf_x_spec p.ExitReason hr
  have hout : (main hc p).world.stdout =
      "Exit reason: " ++ String.mk (hexDigitsAux 8 p.ExitReason []) ++ "\n" ++
        (if p.ExitReason = hc then "The vmcall instruction is executed\n" else "") := by
    rw [main_success hc p h]
    simp only [dispatchOutput, e]
  refine ⟨hout, hv, hall, hne, hhead, ?_, ?_, ?_, ?_⟩
  · rw [hout]
    constructor
    · intro heq
      by_contra hne2
      rw [if_neg hne2] at heq
      have := congrArg String.length heq
      simp only [String.length_append, Nat.add_left_cancel_iff] at this
      exact absurd this (by decide)
    · intro heq
      rw [if_pos heq]
  · rw [main_success hc p h]
    rfl
  · rw [main_success hc p h]
  · rw [main_success hc p h]

/-- Witness of C9 at the sample run, whose exit reason is `0x1005`. -/
theorem C9_dispatch_output_witness :
    samplePlatform.allSucceed ∧ samplePlatform.ExitReason < 2 ^ 32 ∧
    (main 0x1005 samplePlatform).world.stdout =
      "Exit reason: " ++ String.mk (hexDigitsAux 8 samplePlatform.ExitReason []) ++ "\n" ++
        (if samplePlatform.ExitReason = 0x1005 then "The vmcall instruction is executed\n"
         else "") :=
  ⟨by decide, by decide, (C9_dispatch_output 0x1005 samplePlatform (by decide) (by decide)).1⟩

/-- C10: the register call passes `RegNum = 9` pairs; the nine names are
pairwise distinct and are exactly CR0, CR3, CR4, EFER, CS, SS, DS, ES, RIP;
every name slot and every value slot is assigned, the value at an index being
the one computed for the name at that index; CS carries the code descriptor
and SS, DS, ES the same data descriptor; every register call of every run has
these arguments, and a run in which every step succeeds issues exactly one. -/
theorem C10_register_set :
    RegNum = 9 ∧ regname.length = RegNum ∧ regvalue.length = RegNum ∧
    regname =
      [some .WHvX64RegisterCr0, some .WHvX64RegisterCr3, some .WHvX64RegisterCr4,
       some .WHvX64RegisterEfer, some .WHvX64RegisterCs, some .WHvX64RegisterSs,
       some .WHvX64RegisterDs, some .WHvX64RegisterEs, some .WHvX64RegisterRip] ∧
    regname.Nodup ∧
    (∀ r : WHV_REGISTER_NAME, some r ∈ regname ↔
      r ∈ [.WHvX64RegisterCr0, .WHvX64RegisterCr3, .WHvX64RegisterCr4, .WHvX64RegisterEfer,
           .WHvX64RegisterCs, .WHvX64RegisterSs, .WHvX64RegisterDs, .WHvX64RegisterEs,
           .WHvX64RegisterRip]) ∧
    regname.zip regvalue =
      [(some .WHvX64RegisterCr0, some (.Reg64 (CR0_PE ||| CR0_PG))),
       (some .WHvX64RegisterCr3, some (.Reg64 (kernel_start + offsetof_pml4))),
       (some .WHvX64RegisterCr4, some (.Reg64 (CR4_PSE ||| CR4_PAE))),
       (some .WHvX64RegisterEfer, some (.Reg64 (EFER_LME ||| EFER_LMA))),
       (some .WHvX64RegisterCs, some (.Segment CodeSegment)),
       (some .WHvX64RegisterSs, some (.Segment DataSegment)),
       (some .WHvX64RegisterDs, some (.Segment DataSegment)),
       (some .WHvX64RegisterEs, some (.Segment DataSegment)),
       (some .WHvX64RegisterRip, some (.Reg64 user_start))] ∧
    (∀ i, i < RegNum → ∃ n v, regname[i]? = some (some n) ∧ regvalue[i]? = some (some v)) ∧
    (∀ (hc : Nat) (p : Platform) (c : Call), c ∈ (main hc p).world.calls →
      c.kind = .setVirtualProcessorRegisters →
      c = .WHvSetVirtualProcessorRegisters 0 regname RegNum regvalue) ∧
    (∀ (hc : Nat) (p : Platform), p.allSucceed →
      ((main hc p).world.calls.filter
        (fun c => decide (c.kind = .setVirtualProcessorRegisters))).length = 1) := by
  refine ⟨rfl, by decide, by decide, by decide, by decide, ?_, by decide, ?_, ?_, ?_⟩
  · intro r
    cases r <;> decide
  · intro i hi
    simp only [RegNum] at hi
    interval_cases i <;> exact ⟨_, _, rfl, rfl⟩
  · intro hc p c hc1 hk
    have hm : c ∈ fullCalls p := (main_calls_initial hc p).mem hc1
    simp only [fullCalls, successCalls, List.mem_cons, List.mem_singleton, List.not_mem_nil,
      or_false] at hm
    rcases hm with e | e | e | e | e | e | e | e | e | e | e | e <;> subst e <;>
      first
        | rfl
        | (simp only [Call.kind] at hk; cases hk)
  · intro hc p h
    rw [main_success hc p h]
    rfl

end WHP
